import Mathlib

/-
Verification of the platable-insights ingestion/KPI pipeline.

The development shallowly embeds the row-wise data pipeline of
src/streamlit_app.py and src/utils/data.py (and the chart aggregation of
src/utils/charts.py).  Pandas column operations are modelled row-wise:
a dataframe is a `List` of rows, a cell is a `RawVal` (NaN, a number, or a
string), and every column-level operation of the source becomes the
corresponding per-row function.  Floating-point numbers are modelled by ℚ;
the financial identities proved here are algebraic identities of the code
and do not depend on float rounding error.
-/

namespace Platable

/-- A raw spreadsheet cell as pandas sees it: missing (NaN), numeric, or a
string.  `num` models Python floats by rationals. -/
inductive RawVal where
  | na : RawVal
  | num : ℚ → RawVal
  | str : String → RawVal
deriving DecidableEq

/-- Model of Python `str(x)` as applied by the source to a cell:
`str(nan) = "nan"`, strings are unchanged, and numbers render to some
digit string (modelled by `toString` on ℚ; the pipeline only ever inspects
these renderings for letters or digits). -/
def pyStr : RawVal → String
  | .na => "nan"
  | .num q => toString q
  | .str s => s

/-- pd.isna on a scalar cell. -/
def isna : RawVal → Bool
  | .na => true
  | _ => false

/-- Floor of a rational as an integer (the denominator is positive, so
flooring division of numerator by denominator is the floor). -/
def qfloor (q : ℚ) : ℤ := Int.fdiv q.num q.den

/-- Truncation toward zero, the behaviour of Python `int()` / numpy
`astype(int)` on a float. -/
def qtrunc (q : ℚ) : ℤ := q.num / q.den

/-- Round half to even (banker's rounding), the behaviour of Python's
built-in `round` and of numpy/pandas `.round`. -/
def roundHalfEven (q : ℚ) : ℤ :=
  let f := qfloor q
  let r := q - (f : ℚ)
  if r < 1/2 then f
  else if 1/2 < r then f + 1
  else if f % 2 = 0 then f else f + 1

/-- Model of `.round(2)` on a value: round half to even at two decimal places. -/
def round2 (q : ℚ) : ℚ := (roundHalfEven (q * 100) : ℚ) / 100

/-- Value of a digit list read in base 10. -/
def digitsVal (l : List Char) : ℕ :=
  l.foldl (fun a c => 10 * a + (c.toNat - 48)) 0

/-- Keep only the digits of a string: `re.sub(r"\D", "", s)`. -/
def digitsOnly (s : String) : String :=
  String.mk (s.toList.filter Char.isDigit)

/-- Strip leading `'0'` characters: Python `lstrip("0")`. -/
def stripLeadingZeros (s : String) : String :=
  String.mk (s.toList.dropWhile (fun c => c = '0'))

/-- Unsigned part of a Python float literal: digits with at most one
decimal point and at least one digit (`"12"`, `"0.12"`, `".5"`, `"2."`). -/
def parseUnsigned (l : List Char) : Option ℚ :=
  let intPart := l.takeWhile Char.isDigit
  let rest := l.dropWhile Char.isDigit
  match rest with
  | [] => if intPart.isEmpty then none else some (digitsVal intPart)
  | '.' :: frac =>
      if frac.all Char.isDigit && !(intPart.isEmpty && frac.isEmpty) then
        some ((digitsVal intPart : ℚ) + (digitsVal frac : ℚ) / (10 ^ frac.length))
      else none
  | _ => none

/-- Model of Python `float(s)` restricted to optionally signed decimal
literals (the only shapes produced by the source's character filters);
anything else fails, modelling the caught `ValueError`. -/
def pyFloat? (s : String) : Option ℚ :=
  match s.trim.toList with
  | '-' :: rest => (parseUnsigned rest).map (fun q => -q)
  | '+' :: rest => parseUnsigned rest
  | l => parseUnsigned l

/-- Function `to_float` from src/streamlit_app.py (lines 86–91): NaN stays missing,
numbers pass through, strings are stripped of every character except
digits, `'.'` and `'-'` and then parsed; failure yields missing. -/
def to_float (x : RawVal) : Option ℚ :=
  match x with
  | .na => none
  | .num q => some q
  | .str s =>
      pyFloat? (String.mk (s.toList.filter
        (fun c => c.isDigit || c = '.' || c = '-')))

/-- Model of `pd.to_numeric(x, errors="coerce")` on one cell: numbers pass
through, numeric-literal strings parse, anything else coerces to NaN. -/
def toNumeric? (x : RawVal) : Option ℚ :=
  match x with
  | .na => none
  | .num q => some q
  | .str s => pyFloat? s

/-- Function `pct_to_decimal` from src/streamlit_app.py (lines 93–101): strings are
stripped and have `"%"` and `","` removed before parsing; a parsed value
`v` is divided by 100 exactly when `v > 1` (a signed comparison in the
source), otherwise returned unchanged. -/
def pct_to_decimal (x : RawVal) : Option ℚ :=
  match x with
  | .na => none
  | .str s =>
      match pyFloat? (String.mk ((s.trim.toList.filter (fun c => c ≠ '%')).filter
          (fun c => c ≠ ','))) with
      | none => none
      | some v => some (if 1 < v then v / 100 else v)
  | .num q => some (if 1 < q then q / 100 else q)

/-- Read exactly two digits off the front of a character list. -/
def twoDigits? : List Char → Option (ℕ × List Char)
  | a :: b :: r => if a.isDigit && b.isDigit then some (10 * (a.toNat - 48) + (b.toNat - 48), r) else none
  | _ => none

/-- Model of the generic string parse done by `pd.to_datetime` (dateutil),
restricted to the bare clock forms this pipeline's inputs exercise:
`"H:MM"` or `"HH:MM"`, optionally followed by spaces and `am`/`pm` in any
case.  Other strings are treated as unparseable by this stage (they fall
through to the later stages of `parse_hour`, as in the source). -/
def pdParseTimeHour (s : String) : Option ℤ :=
  let l := (s.trim.toList.map Char.toLower)
  let hhDigits := (l.takeWhile Char.isDigit).take 2
  let rest := l.drop hhDigits.length
  if hhDigits.isEmpty then none
  else
    match rest with
    | ':' :: r2 =>
        match twoDigits? r2 with
        | none => none
        | some (mm, r3) =>
            let hh := digitsVal hhDigits
            match r3.dropWhile (fun c => c = ' ') with
            | [] => if hh < 24 && mm < 60 then some (hh : ℤ) else none
            | 'a' :: 'm' :: [] =>
                if 1 ≤ hh && hh ≤ 12 && mm < 60 then
                  some (if hh = 12 then 0 else (hh : ℤ))
                else none
            | 'p' :: 'm' :: [] =>
                if 1 ≤ hh && hh ≤ 12 && mm < 60 then
                  some (if hh = 12 then 12 else (hh : ℤ) + 12)
                else none
            | _ => none
    | _ => none

/-- Model of `pd.to_datetime(val, errors="coerce")` followed by `.hour`.
Numeric scalars are interpreted by pandas as nanosecond offsets from the
Unix epoch (so any in-bounds number yields a valid timestamp whose hour is
the offset divided into hours, modulo 24 — for every small value, hour 0);
out-of-bounds numbers coerce to NaT.  Strings go through the generic
parser model `pdParseTimeHour`. -/
def pdToDatetimeHour (v : RawVal) : Option ℤ :=
  match v with
  | .na => none
  | .num q =>
      if (qfloor q).natAbs < 2 ^ 63 then
        some ((Int.fdiv (qfloor q) 3600000000000) % 24)
      else none
  | .str s => pdParseTimeHour s

/-- The 1–2 digit token, optional `":MM"` group and optional `am`/`pm`
tail matched at a position where a digit starts, modelling one match of
the source's regular expression `(\d{1,2})(?::(\d{2}))?\s*(am|pm)?`. -/
def hourTokenAt (l : List Char) : ℕ × Option String :=
  let ds := (l.takeWhile Char.isDigit).take 2
  let rest := l.drop ds.length
  let rest2 :=
    match rest with
    | ':' :: a :: b :: r => if a.isDigit && b.isDigit then r else rest
    | _ => rest
  let rest3 := rest2.dropWhile Char.isWhitespace
  let ampm : Option String :=
    match rest3 with
    | 'a' :: 'm' :: _ => some "am"
    | 'p' :: 'm' :: _ => some "pm"
    | _ => none
  (digitsVal ds, ampm)

/-- Leftmost match of the hour regular expression over a string:
`re.search` scans to the first digit and matches there. -/
def regexHourSearch : List Char → Option (ℕ × Option String)
  | [] => none
  | c :: r => if c.isDigit then some (hourTokenAt (c :: r)) else regexHourSearch r

/-- Function `parse_hour` from src/streamlit_app.py (lines 103–125) and its twin in
src/utils/data.py (lines 50–70): NaN is missing; otherwise try the generic
pandas parse, then (for numbers) the Excel fraction/serial convention with
half-even rounding, then the textual `"H[:MM] [am|pm]"` pattern over the
lower-cased rendering; 12-hour values are converted and reduced mod 24.
`parseHourText` is the final textual stage (lines 119–125), shared by both
failure paths of `parse_hour`. -/
def parseHourText (v : RawVal) : Option ℤ :=
  match regexHourSearch ((pyStr v).toLower.toList) with
  | none => none
  | some (hh, ampm) =>
      let h2 : ℤ :=
        if ampm = some "pm" && hh ≠ 12 then (hh : ℤ) + 12
        else if ampm = some "am" && hh = 12 then 0
        else (hh : ℤ)
      some (h2 % 24)

def parse_hour (val : RawVal) : Option ℤ :=
  match val with
  | .na => none
  | v =>
    match pdToDatetimeHour v with
    | some h => some h
    | none =>
      match v with
      | .num q =>
          if 0 ≤ q && q ≤ 1 then some ((roundHalfEven (q * 24)) % 24)
          else if 1 < q then some ((roundHalfEven ((q - (qtrunc q : ℚ)) * 24)) % 24)
          else parseHourText v
      | _ => parseHourText v

/-- Function `bucket_time` from src/streamlit_app.py (lines 127–132): the four-way
partition of the hour, with `None` and out-of-range hours going to
`"Other"`. -/
def bucket_time (h : Option ℤ) : String :=
  match h with
  | none => "Other"
  | some h =>
      if 6 ≤ h ∧ h < 12 then "Morning"
      else if 12 ≤ h ∧ h < 18 then "Afternoon"
      else if 18 ≤ h ∧ h < 24 then "Evening"
      else "Other"

/-- Function `time_bucket` from src/utils/data.py (lines 72–77): same partition with
labelled bucket names, NaN going to the `"Other (00–06)"` label. -/
def time_bucket (h : Option ℤ) : String :=
  match h with
  | none => "Other (00–06)"
  | some h =>
      if 6 ≤ h ∧ h < 12 then "Morning (06–12)"
      else if 12 ≤ h ∧ h < 18 then "Afternoon (12–18)"
      else if 18 ≤ h ∧ h < 24 then "Evening (18–24)"
      else "Other (00–06)"

/-- One step of Python `str.title()`: upper-case an alphabetic character
that follows a non-alphabetic one, lower-case the rest. -/
def pyTitleGo : Bool → List Char → List Char
  | _, [] => []
  | prevAlpha, c :: r =>
      (if c.isAlpha then (if prevAlpha then c.toLower else c.toUpper) else c)
        :: pyTitleGo c.isAlpha r

/-- Model of Python `str.title()` (alphabetic word boundaries, which agrees
with Python's cased-character boundaries on the ASCII data seen here). -/
def pyTitle (s : String) : String := String.mk (pyTitleGo false s.toList)

/-- Order-state normalization from src/streamlit_app.py transform
(lines 140–142): `astype(str).str.strip().str.lower()` then the mapping
to Pending / Cancelled and `fillna("Completed")`. -/
def normalize_state (v : RawVal) : String :=
  let s := (pyStr v).trim.toLower
  if s = "pending" then "Pending"
  else if s = "cancelled" then "Cancelled"
  else if s = "canceled" then "Cancelled"
  else "Completed"

/-- Order-state normalization from src/utils/data.py transform (line 109):
only `astype(str).str.strip().str.title()` — no mapping onto a fixed
three-value set. -/
def normalize_state_data (v : RawVal) : String :=
  pyTitle ((pyStr v).trim)

/-- The digits-only phone identity of src/streamlit_app.py transform
(lines 150–151): digits of the country code then of the phone number
(empty for NaN cells), the concatenation stripped of leading zeros, empty
becoming missing. -/
def phoneId (cc pn : RawVal) : Option String :=
  let d := stripLeadingZeros
    (digitsOnly (if isna cc then "" else pyStr cc) ++
     digitsOnly (if isna pn then "" else pyStr pn))
  if d = "" then none else some d

/-- Function `comb_phone` from src/utils/data.py transform (lines 117–120): the
same digits-only concatenation with leading zeros stripped. -/
def comb_phone (cc pn : RawVal) : Option String := phoneId cc pn

/-- The customer identity of src/utils/data.py transform (lines 121–122):
`comb_phone` whenever at least one of country code / phone number is
non-null (its empty result is NOT replaced by the email), the raw email
value when both are null and the email is not, missing otherwise. -/
def customer (cc pn em : RawVal) : Option RawVal :=
  if isna cc = false ∨ isna pn = false then (comb_phone cc pn).map RawVal.str
  else if isna em = false then some em
  else none

/-- NaN-propagating product of two cells, as in
`order_value * commission_pct` on pandas columns. -/
def optMul (a b : Option ℚ) : Option ℚ :=
  match a, b with
  | some x, some y => some (x * y)
  | _, _ => none

/-- The canonical-field cells of one raw record, after header mapping has
selected the raw columns (the mapping itself is `auto_map_header` below;
the claims about transform quantify over the mapped cell values). -/
structure RawRow where
  order_number : RawVal
  order_state : RawVal
  order_value : RawVal
  purchase_item_quantity : RawVal
  service_mode : RawVal
  time : RawVal
  country_code : RawVal
  phone_number : RawVal
  email : RawVal
  commission : RawVal
  pg : RawVal
deriving DecidableEq

/-- A normalized order row as produced by the src/streamlit_app.py
transform (the date column and the impact fields, which no claim
mentions, are omitted). -/
structure Row where
  order_number : RawVal
  order_state : String
  order_value : Option ℚ
  purchase_item_quantity : ℤ
  service_mode : String
  hour : Option ℤ
  time_bucket : String
  phone : Option String
  commission_pct : Option ℚ
  pg_pct : Option ℚ
  commission_amount : Option ℚ
  pg_amount : Option ℚ
  revenue : ℚ
  payout : Option ℚ
deriving DecidableEq

/-- Row-wise embedding of `transform` from src/streamlit_app.py
(lines 134–175, financial part lines 152–159): each column assignment of
the source becomes the corresponding field. -/
def transformRow (r : RawRow) : Row :=
  let ov := to_float r.order_value
  let cp := pct_to_decimal r.commission
  let pp := pct_to_decimal r.pg
  let ca := (optMul ov cp).map round2
  let pa := (optMul ov pp).map round2
  let rev := round2 (ca.getD 0 + pa.getD 0)
  let h := parse_hour r.time
  { order_number := r.order_number
    order_state := normalize_state r.order_state
    order_value := ov
    purchase_item_quantity :=
      match toNumeric? r.purchase_item_quantity with
      | none => 0
      | some q => qtrunc q
    service_mode := pyTitle (pyStr r.service_mode)
    hour := h
    time_bucket := bucket_time h
    phone := phoneId r.country_code r.phone_number
    commission_pct := cp
    pg_pct := pp
    commission_amount := ca
    pg_amount := pa
    revenue := rev
    payout := ov.map (fun v => round2 (v - rev)) }

/-- The normalized table: `transform` applied row by row. -/
def transform (df : List RawRow) : List Row := df.map transformRow

/-- Numeric content of a cell, for columns that src/utils/data.py passes
through untyped but sums numerically downstream (revenue, payout): the
model takes the cells of such columns to be numeric or missing. -/
def rawNum? : RawVal → Option ℚ
  | .num q => some q
  | _ => none

/-- The canonical-field cells of one raw record for the src/utils/data.py
transform. -/
structure DRawRow where
  order_number : RawVal
  order_state : RawVal
  order_value : RawVal
  qty : RawVal
  time : RawVal
  item_name : RawVal
  store_name : RawVal
  brand : RawVal
  country_code : RawVal
  phone_number : RawVal
  email : RawVal
  revenue : RawVal
  payout : RawVal
deriving DecidableEq

/-- A normalized row as produced by the src/utils/data.py transform
(date and the impact fields, which no claim mentions, are omitted). -/
structure DRow where
  order_number : RawVal
  order_state : String
  order_value : Option ℚ
  qty : ℤ
  hour : Option ℤ
  time_bucket : String
  item_name : RawVal
  store_name : RawVal
  brand : RawVal
  customer : Option RawVal
  revenue : Option ℚ
  payout : Option ℚ
deriving DecidableEq

/-- Row-wise embedding of `transform` from src/utils/data.py
(lines 79–149): order state is only stripped and title-cased (line 109),
order value goes through `pd.to_numeric(errors="coerce")` (line 111),
quantity is coerced with `fillna(0).astype(int)` (line 112), and the
revenue and payout columns are passed through from the sheet unchanged
(lines 103–104): nothing rederives them from the commission or gateway
fractions. -/
def transformRowD (r : DRawRow) : DRow :=
  let h := parse_hour r.time
  { order_number := r.order_number
    order_state := normalize_state_data r.order_state
    order_value := toNumeric? r.order_value
    qty :=
      match toNumeric? r.qty with
      | none => 0
      | some q => qtrunc q
    hour := h
    time_bucket := time_bucket h
    item_name := r.item_name
    store_name := r.store_name
    brand := r.brand
    customer := customer r.country_code r.phone_number r.email
    revenue := rawNum? r.revenue
    payout := rawNum? r.payout }

/-- The normalized table of the multipage app. -/
def transformD (df : List DRawRow) : List DRow := df.map transformRowD

/-- Function `exclude_cancelled` from src/utils/data.py (lines 151–152). -/
def exclude_cancelled (df : List DRow) : List DRow :=
  df.filter (fun r => r.order_state ≠ "Cancelled")

/-- Distinct order numbers of one customer's rows, dropping null order
numbers: `groupby("customer")["order_number"].nunique(dropna=True)` for
one group. -/
def custOrderCount (x : List DRow) (c : RawVal) : ℕ :=
  (((x.filter (fun r => r.customer = some c)).filterMap
    (fun r => if r.order_number = .na then none else some r.order_number)).dedup).length

/-- The scalar KPIs of `kpis_company` that the claims mention. -/
structure KpisCompany where
  orders : ℕ
  gmv : ℚ
  aov : ℚ
  u_customers : ℕ
  repeat_pct : ℚ
deriving DecidableEq

/-- Function `kpis_company` from src/utils/data.py (lines 154–180): cancelled rows
are removed first; orders is the row count, gmv the null-skipping sum of
order values, aov guards against zero orders, and the repeat percentage
divides the number of customers with at least two distinct order numbers
by the number of distinct (non-null) customers, defaulting to 0 when
there are none. -/
def kpis_company (df : List DRow) : KpisCompany :=
  let x := exclude_cancelled df
  let orders := x.length
  let gmv := (x.filterMap DRow.order_value).sum
  let custs := (x.filterMap DRow.customer).dedup
  let counts := custs.map (custOrderCount x)
  { orders := orders
    gmv := gmv
    aov := if orders ≠ 0 then gmv / (orders : ℚ) else 0
    u_customers := custs.length
    repeat_pct :=
      if 0 < counts.length then
        ((counts.countP (fun k => 2 ≤ k) : ℚ)) / (counts.length : ℚ)
      else 0 }

/-- The scalar KPIs of the single-file app's `kpis` that the claims
mention. -/
structure KpisApp where
  orders : ℕ
  gmv : ℚ
  revenue : ℚ
  payout : ℚ
  aov : ℚ
  items_sold : ℤ
  u_customers : ℕ
  repeat_pct : ℚ
deriving DecidableEq

/-- Distinct order numbers of the rows sharing one phone identity, for the
single-file app's repeat percentage. -/
def phoneOrderCount (df : List Row) (c : String) : ℕ :=
  (((df.filter (fun r => r.phone = some c)).filterMap
    (fun r => if r.order_number = .na then none else some r.order_number)).dedup).length

/-- Function `kpis` from src/streamlit_app.py (lines 188–205).  Note that unlike
`kpis_company` it does NOT remove cancelled rows: it aggregates exactly
the table it is given. -/
def kpis (df : List Row) : KpisApp :=
  let orders := df.length
  let gmv := (df.filterMap Row.order_value).sum
  let custs := (df.filterMap Row.phone).dedup
  let counts := custs.map (phoneOrderCount df)
  { orders := orders
    gmv := gmv
    revenue := (df.map Row.revenue).sum
    payout := (df.filterMap Row.payout).sum
    aov := if orders ≠ 0 then gmv / (orders : ℚ) else 0
    items_sold := (df.map Row.purchase_item_quantity).sum
    u_customers := custs.length
    repeat_pct :=
      if 0 < counts.length then
        ((counts.countP (fun k => 2 ≤ k) : ℚ)) / (counts.length : ℚ)
      else 0 }

/-- A total comparison on cell values used to model pandas sorting of a
key or metric column: numbers compare numerically, strings
lexicographically; across kinds the order is fixed (NaN first, numbers
before strings — pandas never compares across kinds in a homogeneous
column, so only the within-kind clauses are exercised). -/
def RawVal.le : RawVal → RawVal → Bool
  | .na, _ => true
  | .num _, .na => false
  | .num a, .num b => a ≤ b
  | .num _, .str _ => true
  | .str _, .na => false
  | .str _, .num _ => false
  | .str a, .str b => a ≤ b

/-- One output row of the `bar_top` group-aggregate of src/utils/charts.py
(lines 26–31): per group key, the count of non-null order numbers, and the
null-skipping sums of order value, quantity and revenue. -/
structure Grouped where
  key : RawVal
  Orders : ℕ
  GMV : ℚ
  Items : ℤ
  Revenue : ℚ
deriving DecidableEq

/-- The columns of the grouped frame after `reset_index`: the group key
column plus the four aggregate columns. -/
def aggCols (group : String) : List String :=
  [group, "Orders", "GMV", "Items", "Revenue"]

/-- The aggregate row for one group key. -/
def mkGroup (x : List DRow) (keyOf : DRow → RawVal) (k : RawVal) : Grouped :=
  let rows := x.filter (fun r => keyOf r = k)
  { key := k
    Orders := rows.countP (fun r => r.order_number ≠ .na)
    GMV := (rows.filterMap DRow.order_value).sum
    Items := (rows.map DRow.qty).sum
    Revenue := (rows.filterMap DRow.revenue).sum }

/-- The group keys of `groupby`: distinct non-null key values, in
ascending order (pandas `groupby` drops NaN keys and sorts). -/
def groupKeys (x : List DRow) (keyOf : DRow → RawVal) : List RawVal :=
  List.insertionSort (fun a b => RawVal.le a b)
    ((x.filterMap (fun r => if keyOf r = .na then none else some (keyOf r))).dedup)

/-- The value of column `metric` on a grouped row (only called with
`metric` among `aggCols group`). -/
def mval (group metric : String) (g : Grouped) : RawVal :=
  if metric = group then g.key
  else if metric = "Orders" then .num (g.Orders : ℚ)
  else if metric = "GMV" then .num g.GMV
  else if metric = "Items" then .num (g.Items : ℚ)
  else .num g.Revenue

/-- Model of `agg.sort_values(metric, ascending=asc)`: raises a `KeyError` when the
metric is not a column of the grouped frame, otherwise sorts by that
column's values (descending when `asc` is false). -/
def sort_values (group metric : String) (asc : Bool) (agg : List Grouped) :
    Except String (List Grouped) :=
  if metric ∈ aggCols group then
    .ok (List.insertionSort
      (fun a b =>
        if asc then RawVal.le (mval group metric a) (mval group metric b)
        else RawVal.le (mval group metric b) (mval group metric a)) agg)
  else .error metric

/-- Function `bar_top` from src/utils/charts.py (lines 24–38), data part: cancelled
rows are removed, the frame is grouped and aggregated, sorted by the
requested metric (this raises for an unknown metric) and cut to the first
`n` rows; only AFTER the sort does the source replace an unknown metric by
`"GMV"` for the figure's axis — the returned string is the metric the
figure would use. -/
def bar_top (df : List DRow) (keyOf : DRow → RawVal) (group metric : String)
    (n : ℕ) (asc : Bool) : Except String (List Grouped × String) :=
  let x := df.filter (fun r => r.order_state ≠ "Cancelled")
  let agg := (groupKeys x keyOf).map (mkGroup x keyOf)
  match sort_values group metric asc agg with
  | .error e => .error e
  | .ok sorted =>
      let topn := sorted.take n
      let metricUsed := if metric ∈ aggCols group then metric else "GMV"
      .ok (topn, metricUsed)

/-- Best alias score of one raw column for one canonical field:
`max(score(c, a) for a in aliases)` (alias lists in the source are
non-empty and scores are non-negative, so folding from 0 agrees with
Python's `max`). -/
def maxScore (score : String → String → ℚ) (c : String) (aliases : List String) : ℚ :=
  (aliases.map (score c)).foldl max 0

/-- The `(best, score_best)` fold of `auto_map_headers` in
src/utils/data.py (lines 40–45) and src/streamlit_app.py (lines 76–81):
scan the raw columns, keeping the first column whose score strictly
exceeds the best so far. -/
def bestHeader (score : String → String → ℚ) (aliases cols : List String) :
    Option String × ℚ :=
  cols.foldl
    (fun acc c =>
      if acc.2 < maxScore score c aliases then (some c, maxScore score c aliases)
      else acc)
    (none, 0)

/-- Mapping decision for one canonical field at acceptance threshold `t`
(the source fixes `t = 70` at lines 46 / 82): the best raw column is
accepted exactly when its score reaches the threshold.  The similarity
function (rapidfuzz partial ratio in the source) is a parameter. -/
def auto_map_header (score : String → String → ℚ) (cols aliases : List String)
    (t : ℚ) : Option String :=
  if t ≤ (bestHeader score aliases cols).2 then (bestHeader score aliases cols).1
  else none

/-- Function `auto_map_headers` over an alias table: the accepted
(canonical field, raw column) pairs at threshold `t`. -/
def auto_map_headers (score : String → String → ℚ)
    (canon : List (String × List String)) (cols : List String) (t : ℚ) :
    List (String × String) :=
  canon.foldr
    (fun p acc =>
      match auto_map_header score cols p.2 t with
      | some c => (p.1, c) :: acc
      | none => acc)
    []

/-- The percentage rule as the claim words it ("divides … by 100 exactly
when its magnitude is greater than 1"): a magnitude (absolute value)
test, to be compared with the source's signed test. -/
def pct_magnitude_spec (v : ℚ) : ℚ := if 1 < |v| then v / 100 else v

/-- The customer-identity rule as the claim words it: the digits-only
concatenation with leading zeros stripped; *whenever that result is
empty* fall back to the email; undefined only when that too is absent. -/
def customer_claim_spec (cc pn em : RawVal) : Option RawVal :=
  let d := stripLeadingZeros
    (digitsOnly (if isna cc then "" else pyStr cc) ++
     digitsOnly (if isna pn then "" else pyStr pn))
  if d ≠ "" then some (.str d)
  else if isna em = false then some em
  else none

/-- Sample raw record: a completed 100-AED pickup order with a 10%
commission and 2% gateway fee (the end-to-end scenario of the spec). -/
def rawA : RawRow :=
  { order_number := .str "A1"
    order_state := .str "Completed"
    order_value := .num 100
    purchase_item_quantity := .num 1
    service_mode := .str "pickup"
    time := .na
    country_code := .str "971"
    phone_number := .str "0501234567"
    email := .na
    commission := .str "10%"
    pg := .str "2%" }

/-- Sample raw record: a cancelled 50-AED delivery order. -/
def rawCancelled : RawRow :=
  { order_number := .str "B1"
    order_state := .str "Cancelled"
    order_value := .num 50
    purchase_item_quantity := .num 1
    service_mode := .str "delivery"
    time := .na
    country_code := .na
    phone_number := .str "0507654321"
    email := .na
    commission := .str "5%"
    pg := .str "1%" }

/-- Sample normalized multipage row: a cancelled order. -/
def dCancelled : DRow :=
  { order_number := .str "B1"
    order_state := "Cancelled"
    order_value := some 50
    qty := 1
    hour := none
    time_bucket := "Other (00–06)"
    item_name := .str "Box"
    store_name := .str "S"
    brand := .str "a"
    customer := some (.str "507654321")
    revenue := none
    payout := none }

/-- Sample normalized multipage rows: two completed orders by one
customer, distinct order numbers, on two brands. -/
def dW1 : DRow :=
  { order_number := .str "o1"
    order_state := "Completed"
    order_value := some 3
    qty := 0
    hour := none
    time_bucket := "Other (00–06)"
    item_name := .str "Box"
    store_name := .str "S"
    brand := .str "a"
    customer := some (.str "c")
    revenue := none
    payout := none }

def dW2 : DRow :=
  { order_number := .str "o2"
    order_state := "Completed"
    order_value := some 5
    qty := 0
    hour := none
    time_bucket := "Other (00–06)"
    item_name := .str "Box"
    store_name := .str "S"
    brand := .str "b"
    customer := some (.str "c")
    revenue := none
    payout := none }

/-- Sample scoped table for the aggregate witnesses. -/
def dfW : List DRow := [dW1, dW2]

/-- The grouped rows `bar_top dfW … "GMV"` produces, sorted descending. -/
def rowsW : List Grouped :=
  [{ key := .str "b", Orders := 1, GMV := 5, Items := 0, Revenue := 0 },
   { key := .str "a", Orders := 1, GMV := 3, Items := 0, Revenue := 0 }]

/-- Sample similarity function for the header-mapping witness: exact
matches score 100, everything else 0. -/
def scoreW (c a : String) : ℚ := if c = a then 100 else 0

/-- Sample alias table and raw columns for the header-mapping witness. -/
def canonW : List (String × List String) := [("order_value", ["order value"])]

def colsW : List String := ["junk", "order value"]

/-- Sample multipage raw record whose sheet revenue and payout cells (999
and 880) disagree with the identities the claim asserts for an order
value of 100. -/
def dRaw999 : DRawRow :=
  { order_number := .str "X1"
    order_state := .str "Completed"
    order_value := .num 100
    qty := .num 1
    time := .na
    item_name := .str "Box"
    store_name := .str "S"
    brand := .str "a"
    country_code := .na
    phone_number := .na
    email := .na
    revenue := .num 999
    payout := .num 880 }

theorem rawValLe_total (a b : RawVal) : RawVal.le a b = true ∨ RawVal.le b a = true := by
  cases a <;> cases b <;> simp [RawVal.le, le_total]

theorem rawValLe_trans {a b c : RawVal} (h1 : RawVal.le a b = true)
    (h2 : RawVal.le b c = true) : RawVal.le a c = true := by
  cases a <;> cases b <;> cases c <;> simp_all [RawVal.le] <;> exact le_trans h1 h2

set_option maxRecDepth 8000 in
/-- C1 counterexample: the multipage transform keeps the sheet's revenue
and payout cells unchanged — on a row with order value 100, revenue cell
999 and payout cell 880, the normalized row has revenue 999 and payout
880, while the claimed identities demand revenue round2(0 + 0) = 0 (no
commission or gateway amount is derived in this transform, so both
components are missing) and payout round2(100 − 999) = −899. -/
theorem C1_revenue_passthrough_counterexample :
    (transformRowD dRaw999).order_value = some 100 ∧
    (transformRowD dRaw999).revenue = some 999 ∧
    (transformRowD dRaw999).payout = some 880 ∧
    round2 (0 + 0) = 0 ∧ (999 : ℚ) ≠ 0 ∧
    round2 (100 - 999) = -899 ∧ (880 : ℚ) ≠ -899 := by
  with_unfolding_all decide

/-- C1 (amended): in the single-file app's transform, for every row the
commission and gateway amounts are the rounded products of the order
value with the parsed fractions, revenue is the rounded sum of the two
amounts with missing components treated as zero, and payout is the
rounded difference of the order value and the revenue (missing whenever
the order value is); the multipage transform (utils/data.py) instead
passes the sheet's revenue and payout columns through unchanged and
enforces no identity between them. -/
theorem C1_transform_revenue_payout (df : List RawRow) (row : Row)
    (h : row ∈ transform df) :
    (row.commission_amount = (optMul row.order_value row.commission_pct).map round2 ∧
     row.pg_amount = (optMul row.order_value row.pg_pct).map round2 ∧
     row.revenue = round2 (row.commission_amount.getD 0 + row.pg_amount.getD 0) ∧
     row.payout = row.order_value.map (fun v => round2 (v - row.revenue))) ∧
    (∀ r : DRawRow, (transformRowD r).revenue = rawNum? r.revenue ∧
      (transformRowD r).payout = rawNum? r.payout) := by
  obtain ⟨r, _, rfl⟩ := List.mem_map.mp h
  exact ⟨⟨rfl, rfl, rfl, rfl⟩, fun r => ⟨rfl, rfl⟩⟩

theorem C1_transform_revenue_payout_witness :
    ((transformRow rawA).commission_amount =
      (optMul (transformRow rawA).order_value (transformRow rawA).commission_pct).map round2 ∧
     (transformRow rawA).pg_amount =
      (optMul (transformRow rawA).order_value (transformRow rawA).pg_pct).map round2 ∧
     (transformRow rawA).revenue =
      round2 ((transformRow rawA).commission_amount.getD 0 + (transformRow rawA).pg_amount.getD 0) ∧
     (transformRow rawA).payout =
      (transformRow rawA).order_value.map (fun v => round2 (v - (transformRow rawA).revenue))) ∧
    ((transformRowD dRaw999).revenue = rawNum? dRaw999.revenue ∧
     (transformRowD dRaw999).payout = rawNum? dRaw999.payout) :=
  ⟨(C1_transform_revenue_payout [rawA] (transformRow rawA) (by simp [transform])).1,
   (C1_transform_revenue_payout [rawA] (transformRow rawA) (by simp [transform])).2 dRaw999⟩

/-- C2 counterexample: the raw value `" pending "` does not
case-insensitively equal `"pending"` (their lowercasings differ), yet it
normalizes to `"Pending"`, not `"Completed"` as the claim requires; and
the multipage transform leaves `"refunded"` as `"Refunded"`, outside the
three-value set. -/
theorem C2_state_counterexample :
    normalize_state (.str " pending ") = "Pending" ∧
    " pending ".toLower ≠ "pending".toLower ∧
    normalize_state_data (.str "refunded") = "Refunded" ∧
    "Refunded" ≠ "Pending" ∧ "Refunded" ≠ "Cancelled" ∧ "Refunded" ≠ "Completed" := by
  with_unfolding_all decide

/-- C2 (amended): in the single-file app's transform every normalized
order state is Pending, Cancelled or Completed, and any raw value that
after trimming surrounding whitespace does not case-insensitively match
pending / cancelled / canceled becomes Completed. -/
theorem C2_state_amended (v : RawVal) :
    (normalize_state v = "Pending" ∨ normalize_state v = "Cancelled" ∨
      normalize_state v = "Completed") ∧
    ((pyStr v).trim.toLower ≠ "pending" → (pyStr v).trim.toLower ≠ "cancelled" →
      (pyStr v).trim.toLower ≠ "canceled" → normalize_state v = "Completed") := by
  simp only [normalize_state]
  constructor
  · split_ifs <;> simp
  · intro h1 h2 h3
    split_ifs <;> simp_all

theorem C2_state_amended_witness : normalize_state (.str "Refunded") = "Completed" :=
  (C2_state_amended (.str "Refunded")).2 (by with_unfolding_all decide)
    (by with_unfolding_all decide) (by with_unfolding_all decide)

/-- C3 counterexample: the single-file app's `kpis` is a scalar-KPI
computation that does not remove cancelled rows: on a normalized table
consisting of one cancelled 50-AED order it reports 1 order and GMV 50,
not 0 and 0. -/
theorem C3_kpis_counterexample :
    (transform [rawCancelled]).all (fun r => r.order_state = "Cancelled") = true ∧
    (kpis (transform [rawCancelled])).orders = 1 ∧
    (kpis (transform [rawCancelled])).gmv = 50 := by
  with_unfolding_all decide

/-- C3 (amended): the multipage app's `kpis_company` removes cancelled
rows first, so over a table all of whose rows are cancelled it reports
zero orders and zero GMV; the single-file app's `kpis` aggregates exactly
the table it is given (cancellation filtering happens in its caller's
filter bar, not in the KPI computation). -/
theorem C3_kpis_company_cancelled (df : List DRow)
    (h : ∀ r ∈ df, r.order_state = "Cancelled") :
    (kpis_company df).orders = 0 ∧ (kpis_company df).gmv = 0 := by
  have hx : exclude_cancelled df = [] := by
    apply List.filter_eq_nil_iff.mpr
    intro r hr
    simp [h r hr]
  simp [kpis_company, hx]

theorem C3_kpis_company_cancelled_witness :
    (kpis_company [dCancelled]).orders = 0 ∧ (kpis_company [dCancelled]).gmv = 0 :=
  C3_kpis_company_cancelled [dCancelled] (by with_unfolding_all decide)

/-- C4: the time bucket is a pure function of the hour realizing the
four-way partition — [6,12) Morning, [12,18) Afternoon, [18,24) Evening,
every other hour and the undefined hour Other — in both implementations,
and each transform assigns each row the bucket of that row's hour. -/
theorem C4_time_bucket_partition :
    (∀ h : ℤ, 6 ≤ h → h < 12 →
      bucket_time (some h) = "Morning" ∧ time_bucket (some h) = "Morning (06–12)") ∧
    (∀ h : ℤ, 12 ≤ h → h < 18 →
      bucket_time (some h) = "Afternoon" ∧ time_bucket (some h) = "Afternoon (12–18)") ∧
    (∀ h : ℤ, 18 ≤ h → h < 24 →
      bucket_time (some h) = "Evening" ∧ time_bucket (some h) = "Evening (18–24)") ∧
    (∀ h : ℤ, h < 6 ∨ 24 ≤ h →
      bucket_time (some h) = "Other" ∧ time_bucket (some h) = "Other (00–06)") ∧
    (bucket_time none = "Other" ∧ time_bucket none = "Other (00–06)") ∧
    (∀ r : RawRow, (transformRow r).time_bucket = bucket_time (transformRow r).hour) ∧
    (∀ r : DRawRow, (transformRowD r).time_bucket = time_bucket (transformRowD r).hour) := by
  refine ⟨?_, ?_, ?_, ?_, ⟨rfl, rfl⟩, fun r => rfl, fun r => rfl⟩
  · intro h h1 h2
    constructor <;> simp only [bucket_time, time_bucket] <;> split_ifs <;>
      first | rfl | omega
  · intro h h1 h2
    constructor <;> simp only [bucket_time, time_bucket] <;> split_ifs <;>
      first | rfl | omega
  · intro h h1 h2
    constructor <;> simp only [bucket_time, time_bucket] <;> split_ifs <;>
      first | rfl | omega
  · intro h h1
    constructor <;> simp only [bucket_time, time_bucket] <;> split_ifs <;>
      first | rfl | omega

theorem C4_time_bucket_partition_witness :
    (bucket_time (some 7) = "Morning" ∧ time_bucket (some 7) = "Morning (06–12)") ∧
    (bucket_time (some 13) = "Afternoon" ∧ time_bucket (some 13) = "Afternoon (12–18)") ∧
    (bucket_time (some 21) = "Evening" ∧ time_bucket (some 21) = "Evening (18–24)") ∧
    (bucket_time (some 3) = "Other" ∧ time_bucket (some 3) = "Other (00–06)") ∧
    (bucket_time none = "Other" ∧ time_bucket none = "Other (00–06)") :=
  ⟨C4_time_bucket_partition.1 7 (by decide) (by decide),
   C4_time_bucket_partition.2.1 13 (by decide) (by decide),
   C4_time_bucket_partition.2.2.1 21 (by decide) (by decide),
   C4_time_bucket_partition.2.2.2.1 3 (Or.inl (by decide)),
   C4_time_bucket_partition.2.2.2.2.1⟩

/-- C5: evaluation of `parse_hour` at the claimed scenario inputs.  The
generic date-time stage treats the numeric value 0.5 as 0.5 nanoseconds
after the epoch and succeeds with hour 0 (bucket Other), so the Excel
fraction branch — which would have produced the claimed hour 12, as the
final conjunct shows — is unreachable for numeric inputs; the string
"9:30 PM" does yield hour 21 and bucket Evening as claimed. -/
theorem C5_parse_hour_excel_fraction :
    parse_hour (.num (1/2)) = some 0 ∧
    bucket_time (parse_hour (.num (1/2))) = "Other" ∧
    parse_hour (.str "9:30 PM") = some 21 ∧
    bucket_time (parse_hour (.str "9:30 PM")) = "Evening" ∧
    (roundHalfEven ((1/2 : ℚ) * 24)) % 24 = 12 := by
  with_unfolding_all decide

/-- C6 counterexample: for the input −5 the source's signed test returns
−5 unchanged, while the claim's magnitude rule demands −5/100. -/
theorem C6_pct_counterexample :
    pct_to_decimal (.num (-5)) = some (-5) ∧
    pct_magnitude_spec (-5) = -1/20 ∧
    pct_to_decimal (.num (-5)) ≠ some (pct_magnitude_spec (-5)) := by
  with_unfolding_all decide

/-- C6 (amended): percentage normalization strips "%" and "," from
strings and divides the parsed value by 100 exactly when it is greater
than 1 under the signed order (values ≤ 1, including all negative values,
are returned unchanged); "12" and "0.12" both normalize to 0.12, and
unparsable inputs become undefined. -/
theorem C6_pct_amended :
    (∀ q : ℚ, pct_to_decimal (.num q) = some (if 1 < q then q / 100 else q)) ∧
    pct_to_decimal (.str "12") = some (12/100) ∧
    pct_to_decimal (.str "0.12") = some (12/100) ∧
    pct_to_decimal (.str "1,200%") = some 12 ∧
    pct_to_decimal (.str "abc") = none ∧
    pct_to_decimal .na = none := by
  refine ⟨fun q => rfl, ?_, ?_, ?_, ?_, rfl⟩ <;> with_unfolding_all decide

theorem C6_pct_amended_witness :
    pct_to_decimal (.num 50) = some (if 1 < (50 : ℚ) then 50 / 100 else 50) :=
  C6_pct_amended.1 50

/-- C7 counterexample: with an absent country code, phone value "0" and a
present email, the digits-only result is empty, and the source yields an
undefined identity — it does not fall back to the email as the claim
requires (the fallback fires only when country code and phone are both
missing). -/
theorem C7_customer_counterexample :
    customer .na (.str "0") (.str "a@b.c") = none ∧
    customer_claim_spec .na (.str "0") (.str "a@b.c") = some (.str "a@b.c") ∧
    customer .na (.str "0") (.str "a@b.c") ≠
      customer_claim_spec .na (.str "0") (.str "a@b.c") := by
  with_unfolding_all decide

/-- C7 (amended): the customer identity is the digits-only concatenation
of country code and phone number with leading zeros stripped whenever at
least one of the two cells is present (empty digit results stay
undefined, with no email fallback); the email is used only when country
code and phone number are both missing; when all three are missing the
identity is undefined.  The multipage transform assigns exactly this
identity to each row. -/
theorem C7_customer_amended (cc pn em : RawVal) :
    (isna cc = true → isna pn = true → isna em = true → customer cc pn em = none) ∧
    (isna cc = true → isna pn = true → isna em = false → customer cc pn em = some em) ∧
    ((isna cc = false ∨ isna pn = false) →
      customer cc pn em = (comb_phone cc pn).map RawVal.str) ∧
    (∀ r : DRawRow, (transformRowD r).customer =
      customer r.country_code r.phone_number r.email) := by
  refine ⟨?_, ?_, ?_, fun r => rfl⟩
  · intro h1 h2 h3
    simp [customer, h1, h2, h3]
  · intro h1 h2 h3
    simp [customer, h1, h2, h3]
  · intro h1
    rcases h1 with h | h <;> simp [customer, h]

theorem C7_customer_amended_witness :
    customer .na .na (.str "x@y") = some (.str "x@y") ∧
    customer (.str "971") (.str "050") (.str "x@y") =
      (comb_phone (.str "971") (.str "050")).map RawVal.str :=
  ⟨(C7_customer_amended .na .na (.str "x@y")).2.1 rfl rfl rfl,
   (C7_customer_amended (.str "971") (.str "050") (.str "x@y")).2.2.1 (Or.inl rfl)⟩

/-- C8: a canonical field is accepted exactly when the maximum similarity
score of its best raw column reaches the threshold (70 in the source),
and the accepted mapping is antitone in the threshold: at a lower
threshold every pair accepted at the higher threshold is still accepted,
with the same raw column (the best column does not depend on the
threshold). -/
theorem C8_header_mapping_antitone (score : String → String → ℚ)
    (cols aliases : List String) (canon : List (String × List String))
    (t tHigh : ℚ) (hle : t ≤ tHigh) :
    (∀ c, auto_map_header score cols aliases 70 = some c →
      70 ≤ (bestHeader score aliases cols).2 ∧
      (bestHeader score aliases cols).1 = some c) ∧
    (∀ c, auto_map_header score cols aliases tHigh = some c →
      auto_map_header score cols aliases t = some c) ∧
    (∀ field c, (field, c) ∈ auto_map_headers score canon cols tHigh →
      (field, c) ∈ auto_map_headers score canon cols t) := by
  have key : ∀ (al : List String) (c : String),
      auto_map_header score cols al tHigh = some c →
      auto_map_header score cols al t = some c := by
    intro al c h
    unfold auto_map_header at h ⊢
    split_ifs at h with h1
    rw [if_pos (le_trans hle h1)]
    exact h
  refine ⟨?_, key aliases, ?_⟩
  · intro c h
    unfold auto_map_header at h
    split_ifs at h with h1
    exact ⟨h1, h⟩
  · intro field c
    induction canon with
    | nil =>
        intro hmem
        simp [auto_map_headers] at hmem
    | cons p rest ih =>
      intro hmem
      simp only [auto_map_headers, List.foldr_cons] at hmem ⊢
      cases hcase : auto_map_header score cols p.2 tHigh with
      | none =>
          rw [hcase] at hmem
          cases h2 : auto_map_header score cols p.2 t with
          | none => exact ih hmem
          | some c2 => exact List.mem_cons_of_mem _ (ih hmem)
      | some c1 =>
          rw [hcase] at hmem
          rw [key p.2 c1 hcase]
          rcases List.mem_cons.mp hmem with he | hm
          · exact he ▸ List.mem_cons_self _ _
          · exact List.mem_cons_of_mem _ (ih hm)

theorem C8_header_mapping_antitone_witness :
    ("order_value", "order value") ∈ auto_map_headers scoreW canonW colsW 90 ∧
    ("order_value", "order value") ∈ auto_map_headers scoreW canonW colsW 70 := by
  have h90 : ("order_value", "order value") ∈ auto_map_headers scoreW canonW colsW 90 := by
    with_unfolding_all decide
  exact ⟨h90,
    (C8_header_mapping_antitone scoreW colsW ["order value"] canonW 70 90
      (by norm_num)).2.2 "order_value" "order value" h90⟩

/-- C9: the repeat-customer percentage of `kpis_company` is 0 when there
are no distinct customers, and otherwise equals the number of distinct
customers with at least two distinct order numbers divided by the number
of distinct customers — so the division is only ever performed with a
positive divisor. -/
theorem C9_repeat_pct (df : List DRow) :
    ((kpis_company df).u_customers = 0 → (kpis_company df).repeat_pct = 0) ∧
    (0 < (kpis_company df).u_customers →
      (kpis_company df).repeat_pct =
        ((((exclude_cancelled df).filterMap DRow.customer).dedup.countP
          (fun c => 2 ≤ custOrderCount (exclude_cancelled df) c) : ℕ) : ℚ) /
        ((((exclude_cancelled df).filterMap DRow.customer).dedup.length : ℕ) : ℚ)) := by
  constructor
  · intro h
    simp only [kpis_company] at h ⊢
    have hnil : ((exclude_cancelled df).filterMap DRow.customer).dedup = [] :=
      List.length_eq_zero.mp h
    simp [hnil]
  · intro h
    simp only [kpis_company] at h ⊢
    rw [if_pos (by rw [List.length_map]; exact h)]
    rw [List.countP_map, List.length_map]
    rfl

theorem C9_repeat_pct_witness :
    (kpis_company []).repeat_pct = 0 ∧
    (kpis_company dfW).repeat_pct =
      ((((exclude_cancelled dfW).filterMap DRow.customer).dedup.countP
        (fun c => 2 ≤ custOrderCount (exclude_cancelled dfW) c) : ℕ) : ℚ) /
      ((((exclude_cancelled dfW).filterMap DRow.customer).dedup.length : ℕ) : ℚ) :=
  ⟨(C9_repeat_pct []).1 rfl,
   (C9_repeat_pct dfW).2 (by with_unfolding_all decide)⟩

/-- C10: the function `bar_top` raises for every metric outside the grouped frame's
columns (the sort happens before the membership check, so the GMV
fallback after it can never change the metric — every successful call
returns the requested metric), and every successful call returns at most
`n` rows sorted descending by that metric. -/
theorem C10_bar_top_fallback_unreachable (df : List DRow) (keyOf : DRow → RawVal)
    (group metric : String) (n : ℕ) :
    (metric ∉ aggCols group → bar_top df keyOf group metric n false = .error metric) ∧
    (metric ∈ aggCols group →
      ∀ e, bar_top df keyOf group metric n false ≠ .error e) ∧
    (∀ rows m, bar_top df keyOf group metric n false = .ok (rows, m) →
      m = metric ∧ rows.length ≤ n ∧
      List.Pairwise
        (fun a b => RawVal.le (mval group metric b) (mval group metric a) = true)
        rows) := by
  by_cases hm : metric ∈ aggCols group
  · refine ⟨fun hc => absurd hm hc, ?_, ?_⟩
    · intro _ e
      simp [bar_top, sort_values, hm]
    · intro rows m heq
      simp only [bar_top, sort_values, if_pos hm] at heq
      simp only [Except.ok.injEq, Prod.mk.injEq] at heq
      obtain ⟨h1, h2⟩ := heq
      refine ⟨h2.symm, ?_, ?_⟩
      · rw [← h1]
        exact List.length_take_le ..
      · haveI : IsTotal Grouped
            (fun a b => RawVal.le (mval group metric b) (mval group metric a) = true) :=
          ⟨fun a b => rawValLe_total (mval group metric b) (mval group metric a)⟩
        haveI : IsTrans Grouped
            (fun a b => RawVal.le (mval group metric b) (mval group metric a) = true) :=
          ⟨fun a b c hab hbc => rawValLe_trans hbc hab⟩
        rw [← h1]
        exact List.Pairwise.sublist (List.take_sublist ..)
          (List.sorted_insertionSort _ _)
  · refine ⟨fun _ => ?_, fun hc => absurd hc hm, ?_⟩
    · simp [bar_top, sort_values, hm]
    · intro rows m heq
      simp [bar_top, sort_values, hm] at heq

theorem C10_bar_top_fallback_unreachable_witness :
    bar_top dfW DRow.brand "brand" "Bogus" 2 false = .error "Bogus" ∧
    bar_top dfW DRow.brand "brand" "GMV" 2 false ≠ .error "GMV" ∧
    ("GMV" = "GMV" ∧ rowsW.length ≤ 2 ∧
      List.Pairwise
        (fun a b => RawVal.le (mval "brand" "GMV" b) (mval "brand" "GMV" a) = true)
        rowsW) :=
  ⟨(C10_bar_top_fallback_unreachable dfW DRow.brand "brand" "Bogus" 2).1
      (by with_unfolding_all decide),
   (C10_bar_top_fallback_unreachable dfW DRow.brand "brand" "GMV" 2).2.1
      (by with_unfolding_all decide) "GMV",
   (C10_bar_top_fallback_unreachable dfW DRow.brand "brand" "GMV" 2).2.2 rowsW "GMV"
      (by with_unfolding_all rfl)⟩

end Platable
